import Mathlib

/-
Shallow embedding of src/weather_tool_agent_example/agent.py: the tool
functions (get_weather, say_hello, say_goodbye, get_current_time), the
key-normalization they share, the module-level agent/runner construction
sequence, and the per-turn event consumer call_agent_async.
-/

set_option maxHeartbeats 1000000

namespace WeatherAgent

/-- A Python value as returned by the tool functions of the script: either a
plain string or a flat string-keyed dictionary with string values (the only
shapes these tools produce). -/
inductive PyValue where
  | str (s : String)
  | dict (entries : List (String × String))
deriving DecidableEq

/-- Whether a tool return value is a plain Python string. -/
def PyValue.isStr : PyValue → Bool
  | .str _ => true
  | .dict _ => false

/-- The value of the "status" key of a dictionary result, if any. -/
def statusOf : PyValue → Option String
  | .dict kvs => kvs.lookup "status"
  | .str _ => none

/-- Whether a value has the shared Result Contract shape: a dictionary whose
"status" key is "success" or "error", with exactly one of "report" (on
success) or "error_message" (on error) populated. -/
def isResultContract (v : PyValue) : Bool :=
  match v with
  | .str _ => false
  | .dict kvs =>
    match kvs.lookup "status" with
    | some "success" => (kvs.lookup "report").isSome && (kvs.lookup "error_message").isNone
    | some "error" => (kvs.lookup "error_message").isSome && (kvs.lookup "report").isNone
    | _ => false

/-- Whether a dictionary result carries status "success". -/
def isSuccess (v : PyValue) : Bool := statusOf v == some "success"

/-- Whether a dictionary result carries status "error". -/
def isError (v : PyValue) : Bool := statusOf v == some "error"

/-- Key normalization on the character list: lowercase every character, then
drop every literal space character — the embedding of Python's
`city.lower().replace(" ", "")` (agent.py lines 32 and 77-79). Python's
`str.replace(" ", "")` removes exactly the occurrences of the single space
character U+0020, which the filter mirrors. -/
def normData (l : List Char) : List Char :=
  (l.map Char.toLower).filter (fun c => c != ' ')

/-- The key normalization `city.lower().replace(" ", "")` used by both
get_weather and get_current_time. -/
def normalize (city : String) : String := ⟨normData city.data⟩

/-- Prefix test on character lists (used to state "message contains"). -/
def leadsWith : List Char → List Char → Bool
  | [], _ => true
  | _ :: _, [] => false
  | a :: as, b :: bs => a == b && leadsWith as bs

/-- Substring occurrence test on character lists. -/
def occursIn (sub : List Char) : List Char → Bool
  | [] => sub.isEmpty
  | c :: rest => leadsWith sub (c :: rest) || occursIn sub rest

/-- Whether the string `sub` occurs as a contiguous substring of `s`. -/
def strContains (s sub : String) : Bool := occursIn sub.data s.data

/-- The string payload of a `.str` value (empty for dictionaries). -/
def strOf : PyValue → String
  | .str s => s
  | .dict _ => ""

/-- The value of the "error_message" key of a result (empty if absent). -/
def errMsgOf : PyValue → String
  | .dict kvs => (kvs.lookup "error_message").getD ""
  | .str _ => ""

/-- The static table `mock_weather_db` of get_weather
(agent.py lines 33-37), keys already in normalized form. -/
def mock_weather_db : List (String × PyValue) :=
  [("newyork", .dict [("status", "success"),
      ("report", "The weather in New York is sunny with a temperature of 25 degrees Celsius.")]),
   ("london", .dict [("status", "success"),
      ("report", "It's cloudy in London with a temperature of 15° Celsius.")]),
   ("tokyo", .dict [("status", "success"),
      ("report", "Tokyo is experiencing light rain and a temperature of 18°C.")])]

/-- The tool `get_weather(city)` (agent.py lines 22-44): normalize the city,
look it up in the static table, and on a miss return the error dictionary
interpolating the original (un-normalized) city string. -/
def get_weather (city : String) : PyValue :=
  match mock_weather_db.lookup (normalize city) with
  | some v => v
  | none => .dict [("status", "error"),
      ("error_message", "Weather information for '" ++ city ++ "' is not available.")]

/-- The tool `say_hello(name="there")` (agent.py lines 49-57): despite its
`-> dict` annotation it returns the plain formatted greeting string. -/
def say_hello (name : String := "there") : PyValue :=
  .str ("Hello, " ++ name ++ "! How can I assist you today?")

/-- The tool `say_goodbye()` (agent.py lines 59-65): a fixed farewell string. -/
def say_goodbye : PyValue := .str "Goodbye! Have a great day!"

/-- The body of get_current_time's try-block (agent.py lines 89-103),
parameterized by a clock oracle standing for
`ZoneInfo(tz) / datetime.now(tz) / strftime`: `.ok t` is the formatted time
string, `.error e` a raised exception whose text is `e`; the except-clause
turns the exception into the error dictionary. -/
def timeReport (clock : String → Except String String) (city tz_identifier : String) : PyValue :=
  match clock tz_identifier with
  | .ok t => .dict [("status", "success"),
      ("report", "The current time in " ++ city ++ " is " ++ t ++ ".")]
  | .error e => .dict [("status", "error"),
      ("error_message", "Could not determine time for '" ++ city ++ "': " ++ e)]

/-- The tool `get_current_time(city)` (agent.py lines 68-103): an if/elif
chain mapping exactly two normalized city keys to timezone identifiers, an
else-branch returning the unmapped-city error dictionary, then the guarded
time computation. -/
def get_current_time (clock : String → Except String String) (city : String) : PyValue :=
  if normalize city == "newyork" then
    timeReport clock city "America/New_York"
  else if normalize city == "london" then
    timeReport clock city "Europe/London"
  else
    .dict [("status", "error"),
      ("error_message", "Sorry, I don't have the current time for '" ++ city ++ "'.")]

/-- A clock oracle that always succeeds with a fixed formatted time. -/
def okClock : String → Except String String :=
  fun _ => .ok "2024-01-01 00:00:00 UTC+0000"

/-- `AGENT_MODEL` computation (agent.py lines 107-110): read the environment
entry, default to "gemini-1.5-flash-latest" when absent, and re-default when
the resulting value is falsy (the empty string). `env` stands for
`os.getenv`: `none` is an absent variable. -/
def AGENT_MODEL (env : String → Option String) : String :=
  let m := (env "MODEL_GEMINI_2_0_FLASH").getD "gemini-1.5-flash-latest"
  if m == "" then "gemini-1.5-flash-latest" else m

/-- An agent of the external framework, as configured by the script: name,
model, description, instruction, bound tool names, and sub-agents. -/
inductive Agent where
  | mk (name model description instruction : String)
       (tools : List String) (sub_agents : List Agent)

/-- The name field of an agent. -/
def Agent.name : Agent → String
  | .mk n _ _ _ _ _ => n

/-- The keyword arguments of one `Agent(...)` call of the script. -/
structure AgentConfig where
  name : String
  model : String
  description : String
  instruction : String
  tools : List String
  sub_agents : List Agent

/-- The arguments of the `Agent(...)` call building greeting_agent
(agent.py lines 129-138). -/
def greetingConfig : AgentConfig :=
  { name := "greeting_agent"
    model := "gemini-1.5-flash-latest"
    instruction := "You are the Greeting Agent. Your ONLY task is to provide a friendly greeting to the user. "
      ++ "Use the 'say_hello' tool to generate the greeting. "
      ++ "If the user provides their name, make sure to pass it to the tool. "
      ++ "Do not engage in any other conversation or tasks."
    description := "Handles simple greetings and hellos using the 'say_hello' tool."
    tools := ["say_hello"]
    sub_agents := [] }

/-- The arguments of the `Agent(...)` call building farewell_agent
(agent.py lines 146-154). -/
def farewellConfig : AgentConfig :=
  { name := "farewell_agent"
    model := "gemini-1.5-flash-latest"
    instruction := "You are the Farewell Agent. Your ONLY task is to provide a polite goodbye to the user. "
      ++ "Use the 'say_goodbye' tool to generate the goodbye message. "
      ++ "Do not engage in any other conversation or tasks."
    description := "Handles simple goodbyes using the 'say_goodbye' tool."
    tools := ["say_goodbye"]
    sub_agents := [] }

/-- The arguments of the `Agent(...)` call building root_agent
(agent.py lines 163-178), given the two constructed sub-agents. -/
def rootConfig (ga fa : Agent) : AgentConfig :=
  { name := "weather_agent_v2"
    model := "gemini-1.5-flash-latest"
    description := "The main coordinator agent. Handles weather requests and delegates greetings/farewells to specialists."
    instruction := "You are the main Weather Agent coordinating a team. Your primary responsibility is to provide weather information. "
      ++ "Use the 'get_weather' tool ONLY for specific weather requests (e.g., 'weather in London'). "
      ++ "You have specialized sub-agents: "
      ++ "1. 'greeting_agent': Handles simple greetings like 'Hi', 'Hello'. Delegate to it for these. "
      ++ "2. 'farewell_agent': Handles simple farewells like 'Bye', 'See you'. Delegate to it for these. "
      ++ "Analyze the user's query. If it's a greeting, delegate to 'greeting_agent'. If it's a farewell, delegate to 'farewell_agent'. "
      ++ "If it's a weather request, handle it yourself using 'get_weather'. "
      ++ "For anything else, respond appropriately or state you cannot handle it."
    tools := ["get_weather"]
    sub_agents := [ga, fa] }

/-- The external `Runner` object as the script uses it: its constructor just
stores the agent it is given (agent.py lines 204-208 pass `root_agent`,
which at that point may be Python `None`). -/
structure Runner where
  agent : Option Agent
  app_name : String

/-- The module state after the guarded agent constructions: the three
module-level agent variables and the log of printed diagnostics. -/
structure InitState where
  greeting_agent : Option Agent
  farewell_agent : Option Agent
  root_agent : Option Agent
  log : List String

/-- The diagnostic printed when the root agent cannot be built
(agent.py line 181). -/
def cannotCreateRootMsg : String :=
  "Cannot create root agent because one or more sub-agents failed to initialize or 'get_weather' tool is missing."

/-- The module-level construction sequence of agent.py lines 127-184,
parameterized by the external `Agent(...)` constructor `mk` (`.error e`
models the constructor raising an exception with text `e`). greeting_agent
and farewell_agent are built inside try/except blocks that turn a raise into
a printed diagnostic and leave the variable `None`; root_agent is built only
when both sub-agents exist and `get_weather` is in `globals()` (it always
is, being defined at line 22). A raise inside the unguarded root
`Agent(...)` call aborts the module, hence the `Except`. -/
def buildPhase (mk : AgentConfig → Except String Agent) : Except String InitState :=
  let g : Option Agent × List String :=
    match mk greetingConfig with
    | .ok a => (some a, ["Greeting agent '" ++ a.name ++ "' created successfully."])
    | .error e => (none, ["Error creating greeting agent: " ++ e])
  let f : Option Agent × List String :=
    match mk farewellConfig with
    | .ok a => (some a, ["Farewell agent '" ++ a.name ++ "' created successfully."])
    | .error e => (none, ["Error creating farewell agent: " ++ e])
  match g.1, f.1 with
  | some ga, some fa =>
    match mk (rootConfig ga fa) with
    | .ok ra => .ok ⟨some ga, some fa, some ra,
        g.2 ++ f.2 ++ ["Root Agent '" ++ ra.name ++ "' created."]⟩
    | .error e => .error e
  | _, _ =>
    .ok ⟨g.1, f.1, none,
      g.2 ++ f.2 ++ [cannotCreateRootMsg]
        ++ (if g.1.isNone then [" - Greeting Agent is missing."] else [])
        ++ (if f.1.isNone then [" - Farewell Agent is missing."] else [])⟩

/-- The runner construction of agent.py lines 204-209: `Runner(...)` stores
whatever `root_agent` holds, and the following print accesses
`runner.agent.name`, which raises `AttributeError` when `root_agent` is
Python `None` — aborting the module before any turn can be driven. -/
def runnerPhase (st : InitState) : Except String Runner :=
  let r : Runner := { agent := st.root_agent, app_name := "weather_tutorial_app" }
  match st.root_agent with
  | some _ => .ok r
  | none => .error "AttributeError: 'NoneType' object has no attribute 'name'"

/-- The whole module initialization: agent construction then runner setup.
Only a `.ok` outcome leaves a module in which `run_conversation` (and so
`call_agent_async` driving the runner) is ever reached. -/
def moduleInit (mk : AgentConfig → Except String Agent) : Except String (InitState × Runner) :=
  match buildPhase mk with
  | .ok st =>
    match runnerPhase st with
    | .ok r => .ok (st, r)
    | .error e => .error e
  | .error e => .error e

/-- An external constructor that always succeeds, returning the agent with
exactly the configured fields. -/
def mkAgentOk : AgentConfig → Except String Agent :=
  fun c => .ok (.mk c.name c.model c.description c.instruction c.tools c.sub_agents)

/-- A content part of an event (`part.text` may be Python `None`). -/
structure Part where
  text : Option String

/-- The content of an event: its list of parts. -/
structure Content where
  parts : List Part

/-- The actions of an event: only the escalate flag matters to the script. -/
structure Actions where
  escalate : Bool

/-- An event yielded by `runner.run_async`, with the fields
`call_agent_async` reads (agent.py lines 223-233). -/
structure Event where
  author : String
  content : Option Content
  actions : Option Actions
  error_message : Option String
  final : Bool

/-- The terminal-event predicate `event.is_final_response()`. -/
def Event.is_final_response (e : Event) : Bool := e.final

/-- The initial value of `final_response_text` (agent.py line 220). -/
def defaultResponse : String := "Agent did not produce a final response."

/-- The elif-branch of the final-event handling: `event.actions and
event.actions.escalate` picks the escalation text, where Python's
`event.error_message or 'No specific message.'` falls back on a `None` or
empty message; otherwise `final_response_text` keeps its default. -/
def escalateText (e : Event) : Option String :=
  match e.actions with
  | some a =>
    if a.escalate then
      some ("Agent escalated: " ++
        (match e.error_message with
         | some m => if m == "" then "No specific message." else m
         | none => "No specific message."))
    else some defaultResponse
  | none => some defaultResponse

/-- The text `call_agent_async` takes from the terminal event (agent.py
lines 226-232): `event.content and event.content.parts` guards the read of
`parts[0].text` (which may be Python `None`), else the escalation branch. -/
def extractFinalText (e : Event) : Option String :=
  match e.content with
  | some c =>
    match c.parts with
    | p :: _ => p.text
    | [] => escalateText e
  | none => escalateText e

/-- The `async for` loop of `call_agent_async` (agent.py lines 223-233) over
the turn's event sequence: each event is consumed in order; at the first
event whose `is_final_response()` holds, the final text is taken from that
event and the loop breaks. Returns the final text and how many events were
consumed. -/
def consumeEvents : List Event → Option String × Nat
  | [] => (some defaultResponse, 0)
  | e :: rest =>
    if e.is_final_response then (extractFinalText e, 1)
    else
      let r := consumeEvents rest
      (r.1, r.2 + 1)

/-- A sample non-terminal event, as the runner yields before the final
response of a turn. -/
def evA : Event :=
  { author := "weather_agent_v2", content := none, actions := none,
    error_message := none, final := false }

/-- A sample terminal event carrying the final response text of a turn. -/
def evB : Event :=
  { author := "weather_agent_v2",
    content := some ⟨[⟨some "The weather in London is cloudy."⟩]⟩,
    actions := none, error_message := none, final := true }

/-! Helper lemmas shared by the claim theorems. -/

/-- `Char.ofNat` followed by `Char.toNat` is the identity on valid scalar
values. -/
theorem toNat_ofNat_valid {n : Nat} (h : n.isValidChar) : (Char.ofNat n).toNat = n := by
  rw [Char.ofNat, dif_pos h]
  rfl

/-- ASCII lowercasing is idempotent. -/
theorem toLower_idem (c : Char) : c.toLower.toLower = c.toLower := by
  unfold Char.toLower
  by_cases h : c.toNat ≥ 65 ∧ c.toNat ≤ 90
  · rw [if_pos h]
    have hv : Nat.isValidChar (c.toNat + 32) := Or.inl (by omega)
    rw [toNat_ofNat_valid hv, if_neg (by omega)]
  · rw [if_neg h, if_neg h]

/-- The list-level normalization is idempotent. -/
theorem normData_idem (l : List Char) : normData (normData l) = normData l := by
  induction l with
  | nil => rfl
  | cons c t ih =>
    by_cases h : Char.toLower c = ' '
    · simp only [normData, List.map_cons, List.filter_cons, h] at *
      simpa using ih
    · have hb : (Char.toLower c != ' ') = true := by simp [h]
      simp only [normData, List.map_cons, List.filter_cons, hb, if_true, toLower_idem] at *
      simpa [hb] using ih

/-- Every hit in the static weather table is a Success dictionary. -/
theorem lookup_success (city : String) (v : PyValue)
    (h : mock_weather_db.lookup (normalize city) = some v) : isSuccess v = true := by
  unfold mock_weather_db at h
  simp only [List.lookup] at h
  split at h
  · injection h with h; subst h; rfl
  · split at h
    · injection h with h; subst h; rfl
    · split at h
      · injection h with h; subst h; rfl
      · exact absurd h (by simp)

/-- get_weather always returns a Result-Contract dictionary. -/
theorem get_weather_contract (city : String) : isResultContract (get_weather city) = true := by
  unfold get_weather
  rcases h : mock_weather_db.lookup (normalize city) with _ | v
  · rfl
  · unfold mock_weather_db at h
    simp only [List.lookup] at h
    split at h
    · injection h with h; subst h; rfl
    · split at h
      · injection h with h; subst h; rfl
      · split at h
        · injection h with h; subst h; rfl
        · exact absurd h (by simp)

/-- get_current_time always returns a Result-Contract dictionary, for every
clock outcome. -/
theorem get_current_time_contract (clock : String → Except String String) (city : String) :
    isResultContract (get_current_time clock city) = true := by
  unfold get_current_time timeReport
  repeat' split
  all_goals rfl

/-! The claim theorems. -/

/-- C1: if either sub-agent constructor raises, root_agent is never built (it
stays None), the failure is reported in the printed diagnostics, and module
initialization aborts before any conversation turn could drive a runner;
moreover any module that does initialize successfully carries a runner
holding an actual root agent, so no runner is ever driven with a missing
root agent. -/
theorem subagent_failure_prevents_root (mk : AgentConfig → Except String Agent) :
    (∀ e, (mk greetingConfig = .error e ∨ mk farewellConfig = .error e) →
      ∃ st, buildPhase mk = .ok st ∧ st.root_agent = none ∧
        cannotCreateRootMsg ∈ st.log ∧ (∀ p, moduleInit mk ≠ .ok p)) ∧
    (∀ st r, moduleInit mk = .ok (st, r) → ∃ a, r.agent = some a ∧ st.root_agent = some a) := by
  constructor
  · intro e he
    cases hg : mk greetingConfig with
    | ok ga =>
      cases hf : mk farewellConfig with
      | ok fa =>
        rcases he with h | h
        · rw [hg] at h; exact absurd h (by simp)
        · rw [hf] at h; exact absurd h (by simp)
      | error e2 =>
        refine ⟨⟨some ga, none, none, ?_⟩, ?_, rfl, ?_, ?_⟩
        · exact ["Greeting agent '" ++ ga.name ++ "' created successfully."]
            ++ ["Error creating farewell agent: " ++ e2]
            ++ [cannotCreateRootMsg] ++ [] ++ [" - Farewell Agent is missing."]
        · simp only [buildPhase, hg, hf]
          rfl
        · simp [InitState.log]
        · intro p
          simp only [moduleInit, buildPhase, hg, hf, runnerPhase]
          simp
    | error e1 =>
      cases hf : mk farewellConfig with
      | ok fa =>
        refine ⟨⟨none, some fa, none, ?_⟩, ?_, rfl, ?_, ?_⟩
        · exact ["Error creating greeting agent: " ++ e1]
            ++ ["Farewell agent '" ++ fa.name ++ "' created successfully."]
            ++ [cannotCreateRootMsg] ++ [" - Greeting Agent is missing."] ++ []
        · simp only [buildPhase, hg, hf]
          rfl
        · simp [InitState.log]
        · intro p
          simp only [moduleInit, buildPhase, hg, hf, runnerPhase]
          simp
      | error e2 =>
        refine ⟨⟨none, none, none, ?_⟩, ?_, rfl, ?_, ?_⟩
        · exact ["Error creating greeting agent: " ++ e1]
            ++ ["Error creating farewell agent: " ++ e2]
            ++ [cannotCreateRootMsg] ++ [" - Greeting Agent is missing."]
            ++ [" - Farewell Agent is missing."]
        · simp only [buildPhase, hg, hf]
          rfl
        · simp [InitState.log]
        · intro p
          simp only [moduleInit, buildPhase, hg, hf, runnerPhase]
          simp
  · intro st r h
    unfold moduleInit at h
    cases hb : buildPhase mk with
    | error e => rw [hb] at h; exact absurd h (by simp)
    | ok st' =>
      rw [hb] at h
      simp only [runnerPhase] at h
      cases hr : st'.root_agent with
      | none => rw [hr] at h; simp at h
      | some a =>
        rw [hr] at h
        simp at h
        obtain ⟨hst, hrr⟩ := h
        subst hst
        exact ⟨a, by rw [← hrr], hr⟩

/-- C1 witness: a constructor failing on the greeting agent leaves root_agent
None with the diagnostic logged and initialization aborted, while an
always-succeeding constructor yields a runner holding the root agent. -/
theorem subagent_failure_prevents_root_witness :
    (∃ st, buildPhase (fun _ => .error "boom") = .ok st ∧ st.root_agent = none ∧
      cannotCreateRootMsg ∈ st.log ∧ (∀ p, moduleInit (fun _ => .error "boom") ≠ .ok p)) ∧
    (∃ st r a, moduleInit mkAgentOk = .ok (st, r) ∧
      r.agent = some a ∧ st.root_agent = some a) := by
  refine ⟨(subagent_failure_prevents_root (fun _ => .error "boom")).1 "boom" (Or.inl rfl), ?_⟩
  obtain ⟨a, h1, h2⟩ := (subagent_failure_prevents_root mkAgentOk).2 _ _ rfl
  exact ⟨_, _, a, rfl, h1, h2⟩

/-- C2 counterexample: say_hello returns a plain string, not a dictionary of
the Result Contract shape, so not every tool returns that shape. -/
theorem say_hello_not_contract : isResultContract (say_hello "Ada") = false := rfl

/-- C2 (amended): the two city tools get_weather and get_current_time always
return the Result Contract shape; say_hello and say_goodbye return plain
greeting/farewell strings, not dictionaries. -/
theorem result_contract_spec (clock : String → Except String String) (city name : String) :
    isResultContract (get_weather city) = true ∧
    isResultContract (get_current_time clock city) = true ∧
    (say_hello name).isStr = true ∧
    say_goodbye.isStr = true :=
  ⟨get_weather_contract city, get_current_time_contract clock city, rfl, rfl⟩

/-- C3: for every city string, get_weather returns the table's fixed Success
entry when the normalized key is present, and otherwise exactly the Error
dictionary whose message interpolates the original (un-normalized) city
string; in particular get_weather "Paris" is an Error whose message contains
"Paris". The embedded function is total, so no input raises. -/
theorem get_weather_cases (city : String) :
    (∀ v, mock_weather_db.lookup (normalize city) = some v →
        get_weather city = v ∧ isSuccess v = true) ∧
    (mock_weather_db.lookup (normalize city) = none →
        get_weather city = .dict [("status", "error"),
          ("error_message", "Weather information for '" ++ city ++ "' is not available.")]) ∧
    isError (get_weather "Paris") = true ∧
    strContains (errMsgOf (get_weather "Paris")) "Paris" = true := by
  refine ⟨fun v h => ⟨?_, lookup_success city v h⟩, fun h => ?_, by decide, by decide⟩
  · unfold get_weather
    rw [h]
  · unfold get_weather
    rw [h]

/-- C3 witness: a registered key yields its fixed Success report and "Paris"
yields the interpolated Error message. -/
theorem get_weather_cases_witness :
    get_weather "newyork" = .dict [("status", "success"),
      ("report", "The weather in New York is sunny with a temperature of 25 degrees Celsius.")] ∧
    get_weather "Paris" = .dict [("status", "error"),
      ("error_message", "Weather information for 'Paris' is not available.")] :=
  ⟨((get_weather_cases "newyork").1 _ (by decide)).1,
   by simpa using (get_weather_cases "Paris").2.1 (by decide)⟩

/-- C4 counterexample: "Paris" and "paris" normalize to the same key, yet
get_weather returns different results (its error message interpolates the
original un-normalized string), so normalization-equality alone does not make
get_weather agree on all pairs. -/
theorem normalization_alone_not_enough :
    normalize "Paris" = normalize "paris" ∧ get_weather "Paris" ≠ get_weather "paris" :=
  ⟨by decide, by decide⟩

/-- C4 (amended): for every pair of city strings that agree after lowercasing
and removal of literal spaces *and whose shared normalized key is registered
in the static table*, get_weather returns the same Success payload. -/
theorem get_weather_respects_normalization (a b : String)
    (hn : normalize a = normalize b)
    (hreg : (mock_weather_db.lookup (normalize a)).isSome = true) :
    get_weather a = get_weather b := by
  unfold get_weather
  rw [hn] at hreg ⊢
  cases h : mock_weather_db.lookup (normalize b) with
  | some v => rfl
  | none => rw [h] at hreg; exact absurd hreg (by simp)

/-- C4 witness: "New York" and "newyork" normalize alike, the key is
registered, and the two calls agree. -/
theorem get_weather_respects_normalization_witness :
    normalize "New York" = normalize "newyork" ∧
    get_weather "New York" = get_weather "newyork" :=
  ⟨by decide, get_weather_respects_normalization "New York" "newyork" (by decide) (by decide)⟩

/-- C5: get_current_time maps exactly the two normalized keys "newyork" (to
America/New_York) and "london" (to Europe/London); every city whose
normalization is neither yields the unmapped Error dictionary — in
particular "Tokyo" — and for every clock outcome, including a raising one,
the result is a Result-Contract dictionary, so no failure propagates as an
exception. -/
theorem get_current_time_spec (clock : String → Except String String) (city : String) :
    (normalize city = "newyork" →
      get_current_time clock city = timeReport clock city "America/New_York") ∧
    (normalize city = "london" →
      get_current_time clock city = timeReport clock city "Europe/London") ∧
    (normalize city ≠ "newyork" → normalize city ≠ "london" →
      get_current_time clock city = .dict [("status", "error"),
        ("error_message", "Sorry, I don't have the current time for '" ++ city ++ "'.")]) ∧
    isSuccess (get_current_time okClock city)
      = (normalize city == "newyork" || normalize city == "london") ∧
    isError (get_current_time clock "Tokyo") = true ∧
    isResultContract (get_current_time clock city) = true := by
  refine ⟨?_, ?_, ?_, ?_, ?_, get_current_time_contract clock city⟩
  · intro h
    simp [get_current_time, h]
  · intro h
    simp [get_current_time, h]
  · intro h1 h2
    simp [get_current_time, h1, h2]
  · cases h1 : (normalize city == "newyork") with
    | true => simp [get_current_time, h1, timeReport, okClock, isSuccess, statusOf]
    | false =>
      cases h2 : (normalize city == "london") with
      | true => simp [get_current_time, h1, h2, timeReport, okClock, isSuccess, statusOf]
      | false => simp [get_current_time, h1, h2, isSuccess, statusOf]
  · have h1 : (normalize "Tokyo" == "newyork") = false := by decide
    have h2 : (normalize "Tokyo" == "london") = false := by decide
    simp [get_current_time, h1, h2, isError, statusOf]

/-- C5 witness: the two mapped cities resolve to their zones and an unmapped
city yields the Error dictionary. -/
theorem get_current_time_spec_witness :
    get_current_time okClock "New York" = timeReport okClock "New York" "America/New_York" ∧
    get_current_time okClock "London" = timeReport okClock "London" "Europe/London" ∧
    get_current_time okClock "Paris" = .dict [("status", "error"),
      ("error_message", "Sorry, I don't have the current time for 'Paris'.")] :=
  ⟨(get_current_time_spec okClock "New York").1 (by decide),
   (get_current_time_spec okClock "London").2.1 (by decide),
   (get_current_time_spec okClock "Paris").2.2.1 (by decide) (by decide)⟩

/-- C6: say_hello with no argument produces the greeting with the literal
default name "there", say_hello "Ada" produces a greeting containing "Ada",
and in general the result is the fixed greeting template formatted with the
given name. -/
theorem say_hello_greets (name : String) :
    say_hello = PyValue.str "Hello, there! How can I assist you today?" ∧
    strContains (strOf say_hello) "there" = true ∧
    strContains (strOf (say_hello "Ada")) "Ada" = true ∧
    say_hello name = PyValue.str ("Hello, " ++ name ++ "! How can I assist you today?") :=
  ⟨rfl, by decide, by decide, rfl⟩

/-- C7: the event loop of call_agent_async consumes events in order and stops
at the first event satisfying is_final_response: with any prefix of
non-terminal events, exactly prefix-length + 1 events are consumed — none
after the first terminal event — and the final text is extracted from that
terminal event. -/
theorem call_agent_short_circuits (pre post : List Event) (e : Event)
    (hpre : ∀ x ∈ pre, x.is_final_response = false)
    (he : e.is_final_response = true) :
    consumeEvents (pre ++ e :: post) = (extractFinalText e, pre.length + 1) := by
  induction pre with
  | nil => simp [consumeEvents, he]
  | cons a t ih =>
    have ha : a.is_final_response = false := hpre a (by simp)
    have iht := ih (fun x hx => hpre x (by simp [hx]))
    simp [consumeEvents, ha, iht]

/-- C7 witness: with one non-terminal event, then a terminal event, then a
trailing event, exactly two events are consumed and the text comes from the
terminal one. -/
theorem call_agent_short_circuits_witness :
    consumeEvents ([evA] ++ evB :: [evA]) = (some "The weather in London is cloudy.", 2) := by
  have h := call_agent_short_circuits [evA] [evA] evB
    (by intro x hx; rw [List.mem_singleton] at hx; subst hx; rfl) rfl
  simpa [evB, extractFinalText] using h

/-- C8: the key normalization shared by get_weather and get_current_time is
idempotent; it is total by construction (a Lean function defined on every
string). -/
theorem normalize_idempotent (s : String) : normalize (normalize s) = normalize s := by
  unfold normalize
  exact congrArg String.mk (normData_idem s.data)

/-- C9: AGENT_MODEL falls back to "gemini-1.5-flash-latest" whenever the
environment entry is absent or empty, and is never the empty string. -/
theorem agent_model_defaults (env : String → Option String) :
    ((env "MODEL_GEMINI_2_0_FLASH" = none ∨ env "MODEL_GEMINI_2_0_FLASH" = some "") →
      AGENT_MODEL env = "gemini-1.5-flash-latest") ∧
    AGENT_MODEL env ≠ "" := by
  constructor
  · rintro (h | h) <;> simp [AGENT_MODEL, h]
  · unfold AGENT_MODEL
    cases h : env "MODEL_GEMINI_2_0_FLASH" with
    | none => simp
    | some s =>
      by_cases hs : s = ""
      · simp [hs]
      · have hb : (s == "") = false := by simp [hs]
        simp [hb, hs]

/-- C9 witness: an absent and an empty environment entry both yield the
documented default. -/
theorem agent_model_defaults_witness :
    AGENT_MODEL (fun _ => none) = "gemini-1.5-flash-latest" ∧
    AGENT_MODEL (fun _ => some "") = "gemini-1.5-flash-latest" :=
  ⟨(agent_model_defaults (fun _ => none)).1 (Or.inl rfl),
   (agent_model_defaults (fun _ => some "")).1 (Or.inr rfl)⟩

/-- C10: for every explicitly passed name — including the empty string —
say_hello returns the plain string "Hello, name! How can I assist you
today?" (a string, not the dict its annotation declares); an explicitly
passed empty string does not fall back to "there". -/
theorem say_hello_explicit_name (name : String) :
    say_hello name = PyValue.str ("Hello, " ++ name ++ "! How can I assist you today?") ∧
    (say_hello name).isStr = true ∧
    say_hello "" = PyValue.str "Hello, ! How can I assist you today?" ∧
    strContains (strOf (say_hello "")) "there" = false :=
  ⟨rfl, rfl, by decide, by decide⟩

end WeatherAgent
